import Mathlib

/-!
Verification of the data-enrichment pipeline of `dashboard1.py`.

The program loads a CSV table with columns 월 (month, a `YYYY-MM` string),
매출액 (revenue), 전년동월 (prior-year revenue) and optionally 증감률
(year-over-year change percent), enriches it (`enrich_df`, lines 115-134)
and renders KPI aggregations (lines 160-172, 216).

The embedding models a cell of the parsed CSV as a rational number, a
string, or a missing value (NaN), a table as a list of rows together with
a flag recording whether the 증감률 column is present, and the pandas
column operations row by row (they are independent across rows).  Numbers
are exact rationals; pandas NaN-propagation is modelled with `Option`.
The sort `sort_values("_date")` is modelled by an order-correct sort
(insertion sort); on sortedness, permutation of the rows and
missing-dates-last it agrees with the source, whose default quicksort
leaves only the relative order of ties implementation-defined.
-/

namespace Dashboard1

/-- A cell of the raw table as produced by `pd.read_csv`: a numeric value,
a string, or a missing value (NaN). -/
inductive Cell where
  | num (q : ℚ)
  | str (s : String)
  | na
deriving DecidableEq

/-- Digits of a decimal numeral to its value. -/
def digitsVal (cs : List Char) : ℕ :=
  cs.foldl (fun n c => n * 10 + (c.toNat - 48)) 0

/-- A nonempty all-digit character list to its value, otherwise `none`. -/
def digitsToNat (cs : List Char) : Option ℕ :=
  if cs ≠ [] ∧ cs.all Char.isDigit then some (digitsVal cs) else none

/-- Split a character list at every occurrence of `c`, as `str.split` does. -/
def splitChar (c : Char) : List Char → List (List Char)
  | [] => [[]]
  | x :: xs =>
    if x = c then [] :: splitChar c xs
    else
      match splitChar c xs with
      | [] => [[x]]
      | g :: gs => (x :: g) :: gs

/-- Drop leading and trailing whitespace. -/
def trimChars (cs : List Char) : List Char :=
  ((cs.dropWhile Char.isWhitespace).reverse.dropWhile Char.isWhitespace).reverse

/-- `str.strip()`. -/
def strTrim (s : String) : String := ⟨trimChars s.data⟩

/-- An optionally signed decimal numeral (integer part, optional fractional
part) to an exact rational, otherwise `none`. -/
def parseDecimalChars (cs : List Char) : Option ℚ :=
  match cs with
  | [] => none
  | _ =>
    let sb : ℚ × List Char :=
      match cs with
      | '-' :: rest => (-1, rest)
      | '+' :: rest => (1, rest)
      | _ => (1, cs)
    match splitChar '.' sb.2 with
    | [a] => (digitsToNat a).map (fun n => sb.1 * n)
    | [a, b] =>
      match digitsToNat a, digitsToNat b with
      | some n, some f => some (sb.1 * ((n : ℚ) + (f : ℚ) / (10 : ℚ) ^ b.length))
      | _, _ => none
    | _ => none

/-- Numeric reading of a string, as `pd.to_numeric` accepts plain decimal
numerals (scientific forms like `1e3` are out of the claims' scope and
read as non-numeric here). -/
def parseDecimal (s : String) : Option ℚ :=
  parseDecimalChars (trimChars s.data)

/-- `pd.to_numeric(x, errors="coerce")` on one cell (lines 121-124):
numbers pass through, numeric strings are parsed, anything else becomes
missing (NaN), never an error and never 0. -/
def toNumeric : Cell → Option ℚ
  | .num q => some q
  | .str s => parseDecimal s
  | .na => none

/-- String form of a cell, as `astype(str)` produces (line 118); the form
of a number never matches the `YYYY-MM` pattern, and `str(nan) = "nan"`. -/
def cellToStr : Cell → String
  | .num q => toString q
  | .str s => s
  | .na => "nan"

/-- `pd.to_datetime(s, format="%Y-%m", errors="coerce")` (line 119), as a
(year, month) pair; strings that are not a four-digit year, a dash and a
one- or two-digit month in 1..12 give `none` (NaT). -/
def parseMonth (s : String) : Option (ℕ × ℕ) :=
  match splitChar '-' s.data with
  | [y, m] =>
    match digitsToNat y, digitsToNat m with
    | some yn, some mn =>
      if y.length = 4 ∧ (m.length = 1 ∨ m.length = 2) ∧ 1 ≤ mn ∧ mn ≤ 12 then
        some (yn, mn)
      else none
    | _, _ => none
  | _ => none

/-- One row of the raw input table, in input order: 월, 매출액, 전년동월,
증감률 (the last is ignored when the column is absent). -/
structure RawRow where
  month : Cell
  revenue : Cell
  prior_year_revenue : Cell
  yoy_change_pct : Cell
deriving DecidableEq

/-- The raw input table: its rows, and whether the optional 증감률 column
is present. -/
structure RawTable where
  hasYoy : Bool
  rows : List RawRow
deriving DecidableEq

/-- A row after lines 118-119: month stringified and trimmed, `_date`
parsed, the raw cells still attached. -/
structure PreRow where
  month : String
  date : Option (ℕ × ℕ)
  raw : RawRow
deriving DecidableEq

/-- Lines 118-119 on one row. -/
def preRow (r : RawRow) : PreRow :=
  let m := strTrim (cellToStr r.month)
  { month := m, date := parseMonth m, raw := r }

/-- Linear key of a (year, month) date. -/
def dateKey (d : ℕ × ℕ) : ℕ := d.1 * 12 + d.2

/-- The order `sort_values("_date")` (line 120) sorts by: ascending in the
parsed date, missing dates (NaT) last (`na_position="last"`). -/
def dateLE : Option (ℕ × ℕ) → Option (ℕ × ℕ) → Bool
  | none, none => true
  | none, some _ => false
  | some _, none => true
  | some a, some b => decide (dateKey a ≤ dateKey b)

/-- `dateLE` lifted to pre-rows, the sort order of line 120. -/
def preLE (a b : PreRow) : Prop := dateLE a.date b.date = true

instance : DecidableRel preLE := fun a b => by
  unfold preLE; infer_instance

instance : IsTotal PreRow preLE :=
  ⟨fun a b => by
    unfold preLE
    cases a.date <;> cases b.date <;> simp [dateLE]
    omega⟩

instance : IsTrans PreRow preLE :=
  ⟨fun a b c => by
    unfold preLE
    cases a.date <;> cases b.date <;> cases c.date <;> simp_all [dateLE]
    omega⟩

/-- One output row of `enrich_df`: the trimmed month label, the parsed
`_date`, the coerced numeric columns, the filled 증감률 and the derived
분기 (quarter). -/
structure EnrichedRow where
  month : String
  date : Option (ℕ × ℕ)
  revenue : Option ℚ
  prior_year_revenue : Option ℚ
  yoy_change_pct : Option ℚ
  quarter : Option ℕ
deriving DecidableEq

/-- Lines 121-133 on one row (these column operations are independent
across rows): coerce 매출액 and 전년동월 to numeric; coerce 증감률, or
initialize it to NaN when the column is absent; where it is missing and
전년동월`.ne(0)` holds (true also when 전년동월 is NaN), backfill
`(매출액 - 전년동월) / 전년동월 * 100`, whose value is NaN when either
operand is NaN; `fillna(0)`; and 분기 from `_date.dt.quarter`, NaN on
NaT. -/
def enrichRow (hasYoy : Bool) (p : PreRow) : EnrichedRow :=
  let revenue := toNumeric p.raw.revenue
  let prior := toNumeric p.raw.prior_year_revenue
  let yoy0 : Option ℚ := if hasYoy then toNumeric p.raw.yoy_change_pct else none
  let yoy1 : Option ℚ :=
    match yoy0 with
    | some v => some v
    | none =>
      if prior ≠ some 0 then
        match revenue, prior with
        | some rv, some pr => some ((rv - pr) / pr * 100)
        | _, _ => none
      else none
  { month := p.month
    date := p.date
    revenue := revenue
    prior_year_revenue := prior
    yoy_change_pct := some (yoy1.getD 0)
    quarter := p.date.map (fun d => (d.2 - 1) / 3 + 1) }

/-- `enrich_df` (lines 115-134): stringify, trim and parse the month
column, sort by the parsed date with missing dates last, then coerce,
backfill, default and derive, row by row. -/
def enrich_df (t : RawTable) : List EnrichedRow :=
  (List.insertionSort preLE (t.rows.map preRow)).map (enrichRow t.hasYoy)

/-- Line 162, `df["매출액"].sum()`: pandas sums skip missing values. -/
def sumRevenue (l : List EnrichedRow) : ℚ :=
  (l.map (fun r => r.revenue.getD 0)).sum

/-- Lines 168-169, `df["매출액"].idxmax()` and the lookup of its 월 and
매출액: the first row carrying the maximal non-missing revenue, with that
revenue. -/
def argmaxRevenue (l : List EnrichedRow) : Option (EnrichedRow × ℚ) :=
  l.foldl (fun acc r =>
    match r.revenue with
    | none => acc
    | some v =>
      match acc with
      | none => some (r, v)
      | some bv => if bv.2 < v then some (r, v) else some bv) none

/-- Lines 171-172, `df["매출액"].idxmin()` likewise: the first row carrying
the minimal non-missing revenue. -/
def argminRevenue (l : List EnrichedRow) : Option (EnrichedRow × ℚ) :=
  l.foldl (fun acc r =>
    match r.revenue with
    | none => acc
    | some v =>
      match acc with
      | none => some (r, v)
      | some bv => if v < bv.2 then some (r, v) else some bv) none

/-- Line 216, the denominator of the KPI ratio: `target if target else 1`
(Python truthiness: a zero target is replaced by 1). -/
def kpiDenom (target : ℚ) : ℚ := if target = 0 then 1 else target

/-- Line 216 on one row: `df["매출액"] / (target if target else 1) * 100.0`,
missing revenue giving a missing ratio. -/
def kpiRate (target : ℚ) (r : EnrichedRow) : Option ℚ :=
  r.revenue.map (fun rv => rv / kpiDenom target * 100)

/-- The embedded `SAMPLE_CSV` (lines 91-105) as parsed by `pd.read_csv`:
months as strings, the numeric columns as numbers. -/
def SAMPLE_CSV : RawTable :=
  { hasYoy := true
    rows :=
      [ ⟨.str "2024-01", .num 12000000, .num 10500000, .num (143/10)⟩,
        ⟨.str "2024-02", .num 13500000, .num 11200000, .num (41/2)⟩,
        ⟨.str "2024-03", .num 11000000, .num 12800000, .num (-141/10)⟩,
        ⟨.str "2024-04", .num 18000000, .num 15200000, .num (92/5)⟩,
        ⟨.str "2024-05", .num 21000000, .num 18500000, .num (27/2)⟩,
        ⟨.str "2024-06", .num 22000000, .num 19000000, .num (79/5)⟩,
        ⟨.str "2024-07", .num 25000000, .num 20500000, .num 22⟩,
        ⟨.str "2024-08", .num 28000000, .num 24500000, .num (143/10)⟩,
        ⟨.str "2024-09", .num 24000000, .num 21000000, .num (143/10)⟩,
        ⟨.str "2024-10", .num 23000000, .num 20000000, .num 15⟩,
        ⟨.str "2024-11", .num 19500000, .num 17500000, .num (57/5)⟩,
        ⟨.str "2024-12", .num 17000000, .num 16500000, .num 3⟩ ] }

/-- The state visible around the call `df = enrich_df(df_raw)` (line 154):
the caller's raw table and the slot receiving the result.  `enrich_df`
starts from `df.copy()` (line 117), so every later column assignment acts
on the copy and the caller's table is left as it was. -/
structure Session where
  df_raw : RawTable
  df : Option (List EnrichedRow)
deriving DecidableEq

/-- Line 154, `df = enrich_df(df_raw)`, as a step on the session state. -/
def runEnrich (s : Session) : Session :=
  { df_raw := s.df_raw, df := some (enrich_df s.df_raw) }

/-- Concrete one-row table: month `"2024-05"`, revenue 150, prior-year
revenue 100, 증감률 cell empty. -/
def backfillRow : RawRow := ⟨.str "2024-05", .num 150, .num 100, .na⟩

/-- Table holding `backfillRow`, with the 증감률 column present. -/
def backfillTable : RawTable := ⟨true, [backfillRow]⟩

/-- Concrete one-row table: prior-year revenue 0 and no 증감률 column. -/
def zeroPriorRow : RawRow := ⟨.str "2024-07", .num 5, .num 0, .na⟩

/-- Table holding `zeroPriorRow`, without the 증감률 column. -/
def zeroPriorTable : RawTable := ⟨false, [zeroPriorRow]⟩

/-- Concrete one-row table with a non-numeric revenue cell `"abc"`. -/
def abcRevenueRow : RawRow := ⟨.str "2024-02", .str "abc", .num 100, .na⟩

/-- Table holding `abcRevenueRow`. -/
def abcRevenueTable : RawTable := ⟨true, [abcRevenueRow]⟩

/-- A concrete enriched row with revenue 50, for the KPI ratio. -/
def kpiSampleRow : EnrichedRow :=
  ⟨"2024-01", some (2024, 1), some 50, some 40, some 0, some 1⟩

/-- `enrichRow` leaves the parsed date of a row unchanged. -/
theorem enrichRow_date (h : Bool) (p : PreRow) : (enrichRow h p).date = p.date := rfl

/-- The output rows of `enrich_df` are a permutation of the enriched input
rows: sorting is the only reordering step and it drops nothing. -/
theorem enrich_df_perm (t : RawTable) :
    (enrich_df t).Perm (t.rows.map (fun r => enrichRow t.hasYoy (preRow r))) := by
  unfold enrich_df
  have h := (List.perm_insertionSort preLE (t.rows.map preRow)).map (enrichRow t.hasYoy)
  simpa [List.map_map, Function.comp] using h

/-- Membership in the output of `enrich_df`. -/
theorem mem_enrich_df {t : RawTable} {er : EnrichedRow} :
    er ∈ enrich_df t ↔ ∃ r ∈ t.rows, enrichRow t.hasYoy (preRow r) = er := by
  rw [(enrich_df_perm t).mem_iff, List.mem_map]

/-- Every input row appears, enriched, in the output. -/
theorem enrichRow_mem_enrich_df {t : RawTable} {r : RawRow} (hr : r ∈ t.rows) :
    enrichRow t.hasYoy (preRow r) ∈ enrich_df t :=
  mem_enrich_df.2 ⟨r, hr, rfl⟩

/-- `enrich_df` preserves the number of rows. -/
theorem enrich_df_length_eq (t : RawTable) :
    (enrich_df t).length = t.rows.length := by
  simpa using (enrich_df_perm t).length_eq

/-- The output of `enrich_df` is pairwise ordered by `dateLE` on the parsed
dates. -/
theorem enrich_df_pairwise (t : RawTable) :
    (enrich_df t).Pairwise (fun a b => dateLE a.date b.date = true) := by
  unfold enrich_df
  have hs : List.Pairwise preLE (List.insertionSort preLE (t.rows.map preRow)) :=
    List.sorted_insertionSort preLE (t.rows.map preRow)
  exact hs.map (enrichRow t.hasYoy) (fun a b hab => hab)

/-- Where the 증감률 cell gives no number (or its column is absent) and
the backfill cannot compute — prior-year revenue 0 or missing, or revenue
missing — the enriched 증감률 is the default 0 of `fillna(0)`. -/
theorem enrichRow_yoy_zero (t : RawTable) (r : RawRow)
    (hmiss : t.hasYoy = false ∨ toNumeric r.yoy_change_pct = none)
    (hbad : toNumeric r.prior_year_revenue = some 0 ∨
      toNumeric r.prior_year_revenue = none ∨ toNumeric r.revenue = none) :
    (enrichRow t.hasYoy (preRow r)).yoy_change_pct = some 0 := by
  have hyoy0 : (if t.hasYoy then toNumeric r.yoy_change_pct else none) = none := by
    rcases hmiss with hm | hm <;> simp [hm]
  rcases hrv : toNumeric r.revenue with _ | rv <;>
    rcases hpv : toNumeric r.prior_year_revenue with _ | pv <;>
    simp_all [enrichRow, preRow]

/-- A parsed month is between 1 and 12. -/
theorem parseMonth_month_bounds {s : String} {d : ℕ × ℕ}
    (h : parseMonth s = some d) : 1 ≤ d.2 ∧ d.2 ≤ 12 := by
  unfold parseMonth at h
  repeat split at h
  all_goals cases h
  all_goals simp_all

/-- C1: for every row whose 증감률 cell is missing, blank or non-numeric
while the prior-year revenue is a nonzero number, `enrich_df` sets the
증감률 to `(revenue - prior_year_revenue) / prior_year_revenue * 100`, and
for every row whose 증감률 cell is present and numeric the input value is
kept unchanged; either way the enriched row appears in the output. -/
theorem enrich_yoy_backfill (t : RawTable) (ht : t.hasYoy = true) :
    ∀ r ∈ t.rows,
      enrichRow t.hasYoy (preRow r) ∈ enrich_df t ∧
      (∀ p rv, toNumeric r.yoy_change_pct = none →
        toNumeric r.prior_year_revenue = some p → p ≠ 0 →
        toNumeric r.revenue = some rv →
        (enrichRow t.hasYoy (preRow r)).yoy_change_pct =
          some ((rv - p) / p * 100)) ∧
      (∀ v, toNumeric r.yoy_change_pct = some v →
        (enrichRow t.hasYoy (preRow r)).yoy_change_pct = some v) := by
  intro r hr
  refine ⟨enrichRow_mem_enrich_df hr, ?_, ?_⟩
  · intro p rv hmiss hp hpne hrv
    simp [enrichRow, preRow, ht, hmiss, hp, hrv, hpne]
  · intro v hv
    simp [enrichRow, preRow, ht, hv]

/-- Witness for C1 at `backfillTable`: the empty 증감률 cell is backfilled
to `(150 - 100) / 100 * 100 = 50`. -/
theorem enrich_yoy_backfill_witness :
    backfillTable.hasYoy = true ∧ backfillRow ∈ backfillTable.rows ∧
    toNumeric backfillRow.yoy_change_pct = none ∧
    toNumeric backfillRow.prior_year_revenue = some 100 ∧ (100 : ℚ) ≠ 0 ∧
    toNumeric backfillRow.revenue = some 150 ∧
    (enrichRow backfillTable.hasYoy (preRow backfillRow)).yoy_change_pct =
      some (((150 : ℚ) - 100) / 100 * 100) ∧
    ((150 : ℚ) - 100) / 100 * 100 = 50 := by
  refine ⟨rfl, by simp [backfillTable], rfl, rfl, by norm_num, rfl, ?_, by norm_num⟩
  exact (enrich_yoy_backfill backfillTable rfl backfillRow
    (by simp [backfillTable])).2.1 100 150 rfl rfl (by norm_num) rfl

/-- C2: every output row of `enrich_df` carries a defined (non-NaN) 증감률;
a row it could not backfill — prior-year revenue zero or non-numeric,
revenue non-numeric, 증감률 missing or the whole column absent — gets the
default 0, and no row is dropped. -/
theorem enrich_yoy_default_zero (t : RawTable) :
    (∀ er ∈ enrich_df t, ∃ q, er.yoy_change_pct = some q) ∧
    (enrich_df t).length = t.rows.length ∧
    ∀ r ∈ t.rows,
      (t.hasYoy = false ∨ toNumeric r.yoy_change_pct = none) →
      (toNumeric r.prior_year_revenue = some 0 ∨
        toNumeric r.prior_year_revenue = none ∨ toNumeric r.revenue = none) →
      (enrichRow t.hasYoy (preRow r)).yoy_change_pct = some 0 ∧
      enrichRow t.hasYoy (preRow r) ∈ enrich_df t := by
  refine ⟨?_, enrich_df_length_eq t, ?_⟩
  · intro er her
    obtain ⟨r, hr, hrow⟩ := mem_enrich_df.1 her
    subst hrow
    exact ⟨_, rfl⟩
  · intro r hr hmiss hbad
    exact ⟨enrichRow_yoy_zero t r hmiss hbad, enrichRow_mem_enrich_df hr⟩

/-- Witness for C2 at `zeroPriorTable`: prior-year revenue 0 and no 증감률
column give an output 증감률 of 0, and the row is kept. -/
theorem enrich_yoy_default_zero_witness :
    zeroPriorRow ∈ zeroPriorTable.rows ∧ zeroPriorTable.hasYoy = false ∧
    toNumeric zeroPriorRow.prior_year_revenue = some 0 ∧
    (enrichRow zeroPriorTable.hasYoy (preRow zeroPriorRow)).yoy_change_pct =
      some 0 ∧
    enrichRow zeroPriorTable.hasYoy (preRow zeroPriorRow) ∈
      enrich_df zeroPriorTable ∧
    (enrich_df zeroPriorTable).length = zeroPriorTable.rows.length := by
  have h := enrich_yoy_default_zero zeroPriorTable
  have h2 := h.2.2 zeroPriorRow (by simp [zeroPriorTable]) (Or.inl rfl) (Or.inl rfl)
  exact ⟨by simp [zeroPriorTable], rfl, rfl, h2.1, h2.2, h.2.1⟩

/-- C3: every output row with a parseable month has its 분기 (quarter)
derived from the parsed month number as `(month - 1) / 3 + 1`, equal to
the ceiling of `month / 3` and lying in 1..4; a row whose month fails to
parse has an undefined quarter. -/
theorem enrich_quarter_derived (t : RawTable) :
    ∀ er ∈ enrich_df t,
      (∀ d, er.date = some d →
        er.quarter = some ((d.2 - 1) / 3 + 1) ∧
        (d.2 - 1) / 3 + 1 = (d.2 + 2) / 3 ∧
        1 ≤ (d.2 - 1) / 3 + 1 ∧ (d.2 - 1) / 3 + 1 ≤ 4) ∧
      (er.date = none → er.quarter = none) := by
  intro er her
  obtain ⟨r, hr, hrow⟩ := mem_enrich_df.1 her
  subst hrow
  constructor
  · intro d hd
    have hd' : (preRow r).date = some d := hd
    have hb : 1 ≤ d.2 ∧ d.2 ≤ 12 := by
      have hp : parseMonth (strTrim (cellToStr r.month)) = some d := hd'
      exact parseMonth_month_bounds hp
    refine ⟨by simp [enrichRow, hd'], by omega, by omega, by omega⟩
  · intro hd
    have hd' : (preRow r).date = none := hd
    simp [enrichRow, hd']

/-- Witness for C3 at `backfillTable`: month `"2024-05"` parses to month
number 5 and yields quarter 2. -/
theorem enrich_quarter_derived_witness :
    enrichRow backfillTable.hasYoy (preRow backfillRow) ∈
      enrich_df backfillTable ∧
    (enrichRow backfillTable.hasYoy (preRow backfillRow)).date =
      some (2024, 5) ∧
    (enrichRow backfillTable.hasYoy (preRow backfillRow)).quarter = some 2 := by
  have hmem : enrichRow backfillTable.hasYoy (preRow backfillRow) ∈
      enrich_df backfillTable :=
    enrichRow_mem_enrich_df (by simp [backfillTable])
  have h := (enrich_quarter_derived backfillTable _ hmem).1 (2024, 5) rfl
  exact ⟨hmem, rfl, h.1⟩

/-- C4: the output of `enrich_df` is ordered by the parsed month date —
`dateLE` holds for every pair in output order, so adjacent rows with
parseable months are ascending and every row with an unparseable month
comes after all parseable ones — and no row is excluded. -/
theorem enrich_sorted_by_date (t : RawTable) :
    (enrich_df t).Pairwise (fun a b => dateLE a.date b.date = true) ∧
    (enrich_df t).Pairwise (fun a b => a.date = none → b.date = none) ∧
    (enrich_df t).length = t.rows.length := by
  refine ⟨enrich_df_pairwise t, ?_, enrich_df_length_eq t⟩
  refine (enrich_df_pairwise t).imp ?_
  intro a b hab ha
  cases hb : b.date with
  | none => rfl
  | some d => rw [ha, hb] at hab; simp [dateLE] at hab

/-- C5: numeric coercion of 매출액 and 전년동월 is total and soft — the
coerced value of a row is exactly `toNumeric` of its cell, a non-numeric
cell becomes `none` (never 0), the row still appears in the output, the
row count is kept, and a missing revenue flows into the default-to-0 rule
for the 증감률. -/
theorem enrich_coercion_soft (t : RawTable) :
    (enrich_df t).length = t.rows.length ∧
    (∀ s, parseDecimal s = none → toNumeric (Cell.str s) = none) ∧
    toNumeric Cell.na = none ∧
    ∀ r ∈ t.rows,
      (enrichRow t.hasYoy (preRow r)).revenue = toNumeric r.revenue ∧
      (enrichRow t.hasYoy (preRow r)).prior_year_revenue =
        toNumeric r.prior_year_revenue ∧
      enrichRow t.hasYoy (preRow r) ∈ enrich_df t ∧
      (toNumeric r.revenue = none →
        (enrichRow t.hasYoy (preRow r)).revenue = none ∧
        ((t.hasYoy = false ∨ toNumeric r.yoy_change_pct = none) →
          (enrichRow t.hasYoy (preRow r)).yoy_change_pct = some 0)) := by
  refine ⟨enrich_df_length_eq t, fun s hs => hs, rfl, ?_⟩
  intro r hr
  refine ⟨rfl, rfl, enrichRow_mem_enrich_df hr, ?_⟩
  intro hrv
  refine ⟨by simp [enrichRow, preRow, hrv], fun hmiss => ?_⟩
  exact enrichRow_yoy_zero t r hmiss (Or.inr (Or.inr hrv))

/-- Witness for C5 at `abcRevenueTable`: the cell `"abc"` coerces to
`none`, the row survives with revenue undefined and 증감률 defaulted. -/
theorem enrich_coercion_soft_witness :
    abcRevenueRow ∈ abcRevenueTable.rows ∧
    toNumeric abcRevenueRow.revenue = none ∧
    (enrichRow abcRevenueTable.hasYoy (preRow abcRevenueRow)).revenue =
      none ∧
    (enrichRow abcRevenueTable.hasYoy (preRow abcRevenueRow)).yoy_change_pct =
      some 0 ∧
    enrichRow abcRevenueTable.hasYoy (preRow abcRevenueRow) ∈
      enrich_df abcRevenueTable ∧
    (enrich_df abcRevenueTable).length = abcRevenueTable.rows.length := by
  have h := enrich_coercion_soft abcRevenueTable
  have h4 := h.2.2.2 abcRevenueRow (by simp [abcRevenueTable])
  have h5 := h4.2.2.2 rfl
  exact ⟨by simp [abcRevenueTable], rfl, h5.1, h5.2 (Or.inr rfl), h4.2.2.1, h.1⟩

/-- C6: the KPI achievement ratio divides by the target when it is
nonzero and by 1 when the target is 0, so its denominator is never zero
for any non-negative target. -/
theorem kpi_rate_guard (target : ℚ) (_h : 0 ≤ target) (r : EnrichedRow) :
    kpiDenom target ≠ 0 ∧
    (target ≠ 0 → kpiRate target r =
      r.revenue.map (fun rv => rv / target * 100)) ∧
    (target = 0 → kpiRate target r =
      r.revenue.map (fun rv => rv / 1 * 100)) := by
  by_cases ht : target = 0 <;> simp [kpiRate, kpiDenom, ht]

/-- Witness for C6 at target 0 and `kpiSampleRow`: the denominator is 1
and the ratio is `50 / 1 * 100 = 5000`. -/
theorem kpi_rate_guard_witness :
    (0 : ℚ) ≤ 0 ∧ kpiDenom 0 ≠ 0 ∧
    kpiRate 0 kpiSampleRow =
      kpiSampleRow.revenue.map (fun rv => rv / 1 * 100) ∧
    kpiRate 0 kpiSampleRow = some 5000 := by
  have h := kpi_rate_guard 0 (le_refl 0) kpiSampleRow
  refine ⟨le_refl 0, h.1, h.2.2 rfl, ?_⟩
  rw [h.2.2 rfl]
  norm_num [kpiSampleRow]

/-- C7: `enrich_df` is pure and deterministic — run on the session state
it fills the result slot with a fresh table computed from the input,
leaves the caller's `df_raw` unchanged, and equal inputs give equal
outputs. -/
theorem enrich_pure (s : Session) :
    (runEnrich s).df_raw = s.df_raw ∧
    (runEnrich s).df = some (enrich_df s.df_raw) ∧
    ∀ t₁ t₂ : RawTable, t₁ = t₂ → enrich_df t₁ = enrich_df t₂ :=
  ⟨rfl, rfl, fun _ _ h => congrArg enrich_df h⟩

/-- Witness for C7 at a concrete session holding `backfillTable`. -/
theorem enrich_pure_witness :
    (runEnrich ⟨backfillTable, none⟩).df_raw = backfillTable ∧
    enrich_df backfillTable = enrich_df backfillTable :=
  ⟨(enrich_pure ⟨backfillTable, none⟩).1,
    (enrich_pure ⟨backfillTable, none⟩).2.2 backfillTable backfillTable rfl⟩

/-- C10: `enrich_df` returns exactly as many rows as its input has — no
step of the pipeline drops or adds a row. -/
theorem enrich_row_count (t : RawTable) :
    (enrich_df t).length = t.rows.length :=
  enrich_df_length_eq t

/-- C8: on the embedded 12-row sample, the "2024-01" row keeps its
explicit 증감률 of 14.3, total revenue sums to 234,000,000, the
maximum-revenue row is "2024-08" at 28,000,000 and the minimum-revenue
row is "2024-03" at 11,000,000. -/
theorem sample_pipeline_facts :
    (∃ er ∈ enrich_df SAMPLE_CSV,
      er.month = "2024-01" ∧ er.revenue = some 12000000 ∧
      er.prior_year_revenue = some 10500000 ∧
      er.yoy_change_pct = some (143 / 10)) ∧
    sumRevenue (enrich_df SAMPLE_CSV) = 234000000 ∧
    (argmaxRevenue (enrich_df SAMPLE_CSV)).map (fun x => (x.1.month, x.2)) =
      some ("2024-08", 28000000) ∧
    (argminRevenue (enrich_df SAMPLE_CSV)).map (fun x => (x.1.month, x.2)) =
      some ("2024-03", 11000000) := by
  have hE : enrich_df SAMPLE_CSV =
      [ ⟨"2024-01", some (2024, 1), some 12000000, some 10500000,
          some (143/10), some 1⟩,
        ⟨"2024-02", some (2024, 2), some 13500000, some 11200000,
          some (41/2), some 1⟩,
        ⟨"2024-03", some (2024, 3), some 11000000, some 12800000,
          some (-141/10), some 1⟩,
        ⟨"2024-04", some (2024, 4), some 18000000, some 15200000,
          some (92/5), some 2⟩,
        ⟨"2024-05", some (2024, 5), some 21000000, some 18500000,
          some (27/2), some 2⟩,
        ⟨"2024-06", some (2024, 6), some 22000000, some 19000000,
          some (79/5), some 2⟩,
        ⟨"2024-07", some (2024, 7), some 25000000, some 20500000,
          some 22, some 3⟩,
        ⟨"2024-08", some (2024, 8), some 28000000, some 24500000,
          some (143/10), some 3⟩,
        ⟨"2024-09", some (2024, 9), some 24000000, some 21000000,
          some (143/10), some 3⟩,
        ⟨"2024-10", some (2024, 10), some 23000000, some 20000000,
          some 15, some 4⟩,
        ⟨"2024-11", some (2024, 11), some 19500000, some 17500000,
          some (57/5), some 4⟩,
        ⟨"2024-12", some (2024, 12), some 17000000, some 16500000,
          some 3, some 4⟩ ] := rfl
  refine ⟨?_, ?_, ?_, ?_⟩
  · rw [hE]
    exact ⟨_, List.mem_cons_self _ _, rfl, rfl, rfl, rfl⟩
  · rw [hE]
    norm_num [sumRevenue]
  · rw [hE]
    norm_num [argmaxRevenue]
  · rw [hE]
    norm_num [argminRevenue]

end Dashboard1
